import Mathlib

/-!
Shallow embedding of the gemini-vqa request-to-answer pipeline.

The embedded code comes from:
- `src/services/gemini.ts`: `GeminiServiceError`, `processImageData`,
  `withRetry`, `analyzeImage` (class `GeminiService`);
- the HTTP server (`VQAMCPServer`): `createValidator` (validateImage /
  validateQuestion / validateContext) and the `/mcp/tools/analyze_image`
  route's validation aggregation;
- `src/index.ts`: `takeWebsiteScreenshot`, `getMimeType`, and the
  `analyze_website` tool handler;
- `src/config.ts`: the advertised `vqaToolSchema` bounds for `maxTokens`.

External collaborators (the Gemini SDK call, the headless browser, the
wall clock, `Math.random`) are modelled as explicit parameters: the model
call is a function from the attempt number to its outcome and duration,
the jitter is a function from the retry index to the sampled value, and
browser navigation/screenshot/provider outcomes are fields of an
environment record.
-/

namespace GeminiVQA

/-- JavaScript `Error` values as they occur in this code base: either a
plain `Error(message)` or a `GeminiServiceError` carrying an optional
`cause` and an optional `details` string. -/
inductive JSError where
  | plain (message : String)
  | gemini (message : String) (cause : Option JSError) (details : Option String)

/-- The `message` property of an error. -/
def JSError.message : JSError → String
  | .plain m => m
  | .gemini m _ _ => m

/-- The `details` property (only `GeminiServiceError` has one). -/
def JSError.detailsOf : JSError → Option String
  | .plain _ => none
  | .gemini _ _ d => d

/-- The `cause` property (only `GeminiServiceError` has one). -/
def JSError.causeOf : JSError → Option JSError
  | .plain _ => none
  | .gemini _ c _ => c

/-- JavaScript `a || b` on optional strings: an absent value and the empty
string are both falsy. -/
def jsOrElse (a b : Option String) : Option String :=
  match a with
  | some s => if s = "" then b else some s
  | none => b

/-- The `GeminiServiceError` constructor: stores
`this.details = details || cause?.message`. -/
def mkGeminiServiceError (message : String) (cause : Option JSError)
    (details : Option String) : JSError :=
  .gemini message cause (jsOrElse details (cause.map JSError.message))

/-! ## Request validation (server `createValidator` and route aggregation) -/

/-- The server's `ValidationResult`: `{ valid, errors? }`. -/
structure ValidationResult where
  valid : Bool
  errors : Option (List String)
deriving DecidableEq, Repr

/-- The constant `DEFAULT_VALIDATION = { valid: true }`. -/
def DEFAULT_VALIDATION : ValidationResult := ⟨true, none⟩

/-- The three data-URL heads matched by the regex
`/^data:image\/(png|jpeg|jpg);base64,/` used in both `validateImage` and
`processImageData`. -/
def dataUrlHeads : List String :=
  ["data:image/png;base64,", "data:image/jpeg;base64,", "data:image/jpg;base64,"]

/-- Whether the string starts with one of the three data-URL heads,
i.e. `base64Image.match(/^data:image\/(png|jpeg|jpg);base64,/)` is truthy. -/
def hasDataUrlHead (s : String) : Bool :=
  dataUrlHeads.any (fun p => p.data.isPrefixOf s.data)

/-- The server's `createValidator().validateImage`. -/
def validateImage (base64Image : String) : ValidationResult :=
  if base64Image = "" then ⟨false, some ["Image is required"]⟩
  else if ¬ hasDataUrlHead base64Image then ⟨false, some ["Invalid image format"]⟩
  else ⟨true, none⟩

/-- JavaScript `String.prototype.trim`: drop whitespace from both ends. -/
def jsTrim (s : String) : String :=
  ⟨((s.data.dropWhile Char.isWhitespace).reverse.dropWhile Char.isWhitespace).reverse⟩

/-- The server's `createValidator().validateQuestion`. -/
def validateQuestion (question : String) : ValidationResult :=
  if question = "" ∨ (jsTrim question).length = 0 then ⟨false, some ["Question is required"]⟩
  else if question.length > 1000 then ⟨false, some ["Question too long"]⟩
  else ⟨true, none⟩

/-- The server's `createValidator().validateContext`. -/
def validateContext (context : String) : ValidationResult :=
  if context ≠ "" ∧ context.length > 2000 then ⟨false, some ["Context too long"]⟩
  else ⟨true, none⟩

/-- The request body of the `analyze_image` tool (`VQAToolInput`). -/
structure VQAToolInput where
  question : String
  image : String
  context : Option String
  maxTokens : Option Nat
deriving DecidableEq, Repr

/-- The validation-error aggregation performed by the
`POST /mcp/tools/analyze_image` route: the error lists of
`validateImage`, `validateQuestion` and (when a context is present and
truthy) `validateContext` are concatenated into one list. -/
def requestValidationErrors (input : VQAToolInput) : List String :=
  let imgValidation := validateImage input.image
  let quesValidation := validateQuestion input.question
  let ctxValidation :=
    match input.context with
    | some c => if c = "" then DEFAULT_VALIDATION else validateContext c
    | none => DEFAULT_VALIDATION
  imgValidation.errors.getD [] ++ quesValidation.errors.getD [] ++
    ctxValidation.errors.getD []

/-- The `maxTokens` minimum advertised in `vqaToolSchema` (`config.ts`). -/
def vqaToolSchemaMaxTokensMin : Nat := 1

/-- The `maxTokens` maximum advertised in `vqaToolSchema` (`config.ts`). -/
def vqaToolSchemaMaxTokensMax : Nat := 2048

/-! ## Base64 handling (`processImageData`) -/

/-- Membership in the base64 alphabet `[A-Za-z0-9+/]`. -/
def isB64Char (c : Char) : Bool :=
  c.isAlphanum || c == '+' || c == '/'

/-- The regex `/^[A-Za-z0-9+/]+[=]{0,2}$/`: one or more base64-alphabet
characters followed by at most two `=` padding characters. -/
def isBase64Body (s : String) : Bool :=
  let body := s.data.takeWhile isB64Char
  let rest := s.data.dropWhile isB64Char
  !body.isEmpty && rest.all (fun c => c == '=') && decide (rest.length ≤ 2)

/-- The replace `base64Image.replace(/^data:image\/(png|jpeg|jpg);base64,/, "")`:
strip the first matching data-URL head, if any. -/
def stripDataUrl (s : String) : String :=
  match dataUrlHeads.find? (fun p => p.data.isPrefixOf s.data) with
  | some p => ⟨s.data.drop p.data.length⟩
  | none => s

/-- The `{ data, mimeType }` inline part handed to the Gemini SDK. -/
structure InlinePart where
  data : String
  mimeType : String
deriving DecidableEq, Repr

/-- The method `GeminiService.processImageData`: strip an optional data-URL head,
check the base64 alphabet, and always stamp `mimeType: "image/jpeg"`.
A failing check throws, and the catch block wraps the thrown error in a
`GeminiServiceError("Failed to process image data", cause)`. -/
def processImageData (base64Image : String) : Except JSError InlinePart :=
  let imageData := stripDataUrl base64Image
  if isBase64Body imageData then .ok ⟨imageData, "image/jpeg"⟩
  else .error (mkGeminiServiceError "Failed to process image data"
    (some (.plain "Invalid base64 image data")) none)

/-! ## Retry executor (`GeminiService.withRetry`) -/

/-- The service's `RetryConfig`. -/
structure RetryConfig where
  maxRetries : Nat
  initialDelayMs : Nat
  maxDelayMs : Nat
  backoffMultiplier : Nat
deriving DecidableEq, Repr

/-- The `retryConfig` built in the `GeminiService` constructor:
`{ maxRetries: config.maxRetries, initialDelayMs: 1000, maxDelayMs: 10000,
backoffMultiplier: 2 }`. -/
def serviceRetryConfig (maxRetries : Nat) : RetryConfig :=
  ⟨maxRetries, 1000, 10000, 2⟩

/-- A restatement of `Except.isOk`, local so the embedding is self-contained. -/
def exceptIsOk : Except ε α → Bool
  | .ok _ => true
  | .error _ => false

/-- One observable run of `withRetry`: the returned (or thrown) value, how
many times `operation` was invoked, and the successive slept
inter-attempt delays in chronological order. -/
structure RetryRun (α : Type) where
  result : Except JSError α
  invocations : Nat
  delays : List Nat

/-- The message of the detection-only timeout error
`` `Operation timed out after ${duration}ms` ``. -/
def timeoutErrorMsg (duration : Nat) : String :=
  "Operation timed out after " ++ toString duration ++ "ms"

/-- The fate of one loop iteration's `operation()` call: a result that
took longer than `config.timeout` is turned into a thrown
`GeminiServiceError`, otherwise it is returned as-is. The pair holds the
operation's outcome and its elapsed wall-clock duration. -/
def attemptOutcome (timeout : Nat) (r : Except JSError α × Nat) : Except JSError α :=
  match r.1 with
  | .ok v => if timeout < r.2 then
      .error (mkGeminiServiceError (timeoutErrorMsg r.2) none none)
    else .ok v
  | .error e => .error e

/-- The `withRetry` loop. `op n` is the outcome and duration of the n-th
invocation of `operation` (0-based); `jitter n` is the value of
`Math.random() * 200` sampled after the n-th invocation failed; `attempts`
is the loop's `attempts` counter; `delay` its `delay` variable; `rem` is
`maxRetries - attempts`, so the source's terminal test
`attempts + 1 >= maxRetries` is `rem ≤ 1`. -/
def withRetryGo (cfg : RetryConfig) (timeout : Nat)
    (op : Nat → Except JSError α × Nat) (jitter : Nat → Nat) :
    Nat → Nat → Nat → RetryRun α
  | attempts, _delay, 0 =>
    match attemptOutcome timeout (op attempts) with
    | .ok v => ⟨.ok v, attempts + 1, []⟩
    | .error e =>
      ⟨.error (mkGeminiServiceError "Max retry attempts reached" (some e) none),
       attempts + 1, []⟩
  | attempts, _delay, 1 =>
    match attemptOutcome timeout (op attempts) with
    | .ok v => ⟨.ok v, attempts + 1, []⟩
    | .error e =>
      ⟨.error (mkGeminiServiceError "Max retry attempts reached" (some e) none),
       attempts + 1, []⟩
  | attempts, delay, r + 2 =>
    match attemptOutcome timeout (op attempts) with
    | .ok v => ⟨.ok v, attempts + 1, []⟩
    | .error _e =>
      let rest := withRetryGo cfg timeout op jitter (attempts + 1)
        (min (delay * cfg.backoffMultiplier) cfg.maxDelayMs) (r + 1)
      ⟨rest.result, rest.invocations, (delay + jitter attempts) :: rest.delays⟩

/-- The method `GeminiService.withRetry(operation)`: start with `attempts = 0`,
`delay = initialDelayMs`, and `maxRetries` attempts remaining. -/
def withRetry (cfg : RetryConfig) (timeout : Nat)
    (op : Nat → Except JSError α × Nat) (jitter : Nat → Nat) : RetryRun α :=
  withRetryGo cfg timeout op jitter 0 cfg.initialDelayMs cfg.maxRetries

/-- The value of the loop's `delay` variable before the (k+1)-th sleep:
`delay` starts at `initialDelayMs` and each sleep is followed by
`delay = min(delay * backoffMultiplier, maxDelayMs)`. -/
def delaySeq (cfg : RetryConfig) : Nat → Nat
  | 0 => cfg.initialDelayMs
  | k + 1 => min (delaySeq cfg k * cfg.backoffMultiplier) cfg.maxDelayMs

/-! ## Model invocation (`GeminiService.analyzeImage`) -/

/-- The hardwired model id of `GeminiService`. -/
def geminiModelName : String := "gemini-2.5-pro-preview-06-05"

/-- The prompt string built in `analyzeImage` (the `if (context)` guard is
JS-truthy, so an empty context string adds no line). -/
def buildPrompt (question : String) (context : Option String) : String :=
  let base := "Answer the following question about the image: " ++ question ++ "\n"
  let withCtx :=
    match context with
    | some c => if c = "" then base else base ++ "Context: " ++ c ++ "\n"
    | none => base
  withCtx ++ "Please be concise and accurate in your response."

/-- The `VQAToolResponse` success envelope. `confidence` is the literal
`0.9` of the source, represented exactly as the rational `9/10`. -/
structure VQAToolResponse where
  answer : String
  confidence : ℚ
  processingTime : Nat
  modelUsed : String
deriving DecidableEq, Repr

/-- The method `GeminiService.analyzeImage`. `op` models the `generateContent`
closure handed to `withRetry` (its `String` result is the response text
later read by `result.text()`); `elapsedMs` models the ambient wall-clock
span `Date.now() - startTime`. `maxTokens` only feeds the generation
config of the external call and is otherwise unused. The outer catch
wraps any thrown error in
`GeminiServiceError("Failed to analyze image", cause)`. -/
def analyzeImage (cfg : RetryConfig) (timeout : Nat) (question image : String)
    (context : Option String) (maxTokens : Option Nat)
    (op : Nat → Except JSError String × Nat) (jitter : Nat → Nat)
    (elapsedMs : Nat) : Except JSError VQAToolResponse :=
  let _prompt := buildPrompt question context
  let _maxOutputTokens := maxTokens
  let tryBlock : Except JSError VQAToolResponse :=
    match processImageData image with
    | .error e => .error e
    | .ok _imagePart =>
      match (withRetry cfg timeout op jitter).result with
      | .error e => .error e
      | .ok text => .ok ⟨text, 9 / 10, elapsedMs, geminiModelName⟩
  match tryBlock with
  | .ok r => .ok r
  | .error e => .error (mkGeminiServiceError "Failed to analyze image" (some e) none)

/-- The `POST /mcp/tools/analyze_image` route after body parsing: either a
400 rejection carrying the joined violation list, or the forwarded call to
`geminiService.analyzeImage`. -/
inductive HandlerOutcome where
  | rejected (details : String)
  | forwarded (response : Except JSError VQAToolResponse)

/-- The route handler: aggregate the violations; reject with their `"; "`
join when any exist, otherwise forward the input to `analyzeImage`. -/
def handleAnalyzeImage (cfg : RetryConfig) (timeout : Nat)
    (op : Nat → Except JSError String × Nat) (jitter : Nat → Nat)
    (elapsedMs : Nat) (input : VQAToolInput) : HandlerOutcome :=
  let validationErrors := requestValidationErrors input
  if validationErrors.length > 0 then
    .rejected (String.intercalate "; " validationErrors)
  else
    .forwarded (analyzeImage cfg timeout input.question input.image input.context
      input.maxTokens op jitter elapsedMs)

/-! ## Screenshot acquisition (`takeWebsiteScreenshot`, `analyze_website`) -/

/-- Observable browser/provider events of the `analyze_website` handler. -/
inductive WebEvent where
  | launch
  | newPage
  | goto
  | screenshot
  | close
  | provider (mimeType : String)
deriving DecidableEq, Repr

/-- Outcomes of the external steps of one `analyze_website` call:
`page.goto` (with its navigation timeout), `page.screenshot` (PNG bytes),
and the `generateContent` provider call. -/
structure WebsiteEnv where
  navResult : Except String Unit
  shotResult : Except String (List Nat)
  providerResult : Except String String

/-- The helper `takeWebsiteScreenshot`: launch a fresh browser, then run the `try`
block (new page, viewport, user agent, `goto`, wait, `screenshot`); the
`finally` block closes the browser on every exit path. The trace lists
the events in order; the value is the PNG bytes or the thrown error. -/
def takeWebsiteScreenshot (env : WebsiteEnv) :
    Except String (List Nat) × List WebEvent :=
  let tryBlock : Except String (List Nat) × List WebEvent :=
    match env.navResult with
    | .error e => (.error e, [.newPage, .goto])
    | .ok _ =>
      match env.shotResult with
      | .error e => (.error e, [.newPage, .goto, .screenshot])
      | .ok bytes => (.ok bytes, [.newPage, .goto, .screenshot])
  (tryBlock.1, .launch :: tryBlock.2 ++ [.close])

/-- The `analyze_website` tool handler after input validation: take the
screenshot (browser scoped inside), then — only when the screenshot
succeeded — invoke the provider with `mimeType: "image/png"`. -/
def analyzeWebsite (env : WebsiteEnv) : Except String String × List WebEvent :=
  let shot := takeWebsiteScreenshot env
  match shot.1 with
  | .error e => (.error e, shot.2)
  | .ok _bytes =>
    match env.providerResult with
    | .error e => (.error e, shot.2 ++ [.provider "image/png"])
    | .ok answer => (.ok answer, shot.2 ++ [.provider "image/png"])

/-- The helper `getMimeType` from `src/index.ts`: `path.extname(filePath)`
lowercased, then the fixed extension→mime table with `image/jpeg` as the
default. `extnameOf` models Node's `path.extname`: the suffix of the last
path segment from its final dot, empty when the only dot is leading. -/
def extnameOf (path : String) : String :=
  let base := (path.data.reverse.takeWhile (fun c => c ≠ '/')).reverse
  let afterDot := base.reverse.takeWhile (fun c => c ≠ '.')
  if afterDot.length + 2 ≤ base.length then ⟨'.' :: afterDot.reverse⟩ else ""

/-- The extension→mime switch of `getMimeType`. -/
def getMimeType (filePath : String) : String :=
  let ext : String := ⟨(extnameOf filePath).data.map Char.toLower⟩
  if ext = ".jpg" ∨ ext = ".jpeg" then "image/jpeg"
  else if ext = ".png" then "image/png"
  else if ext = ".gif" then "image/gif"
  else if ext = ".webp" then "image/webp"
  else "image/jpeg"

/-! ## Lemmas about the retry executor -/

/-- If attempts `k, …, N-1` fail and attempt `N` succeeds within the
timeout, the loop returns the success value after `N + 1` invocations,
provided enough attempts remain. -/
theorem withRetryGo_ok_after_failures {α : Type} (cfg : RetryConfig) (timeout : Nat)
    (op : Nat → Except JSError α × Nat) (jitter : Nat → Nat) (N : Nat) (v : α)
    (hfail : ∀ n, n < N → exceptIsOk (attemptOutcome timeout (op n)) = false)
    (hok : attemptOutcome timeout (op N) = .ok v) :
    ∀ rem k delay, k ≤ N → N - k < rem →
      (withRetryGo cfg timeout op jitter k delay rem).result = .ok v ∧
      (withRetryGo cfg timeout op jitter k delay rem).invocations = N + 1 := by
  intro rem
  induction rem with
  | zero => intro k delay _ h; omega
  | succ r ih =>
    intro k delay hk hrem
    rcases eq_or_lt_of_le hk with heq | hlt
    · subst heq
      cases r with
      | zero => simp [withRetryGo, hok]
      | succ s => simp [withRetryGo, hok]
    · have hf := hfail k hlt
      cases r with
      | zero => omega
      | succ s =>
        cases hstep : attemptOutcome timeout (op k) with
        | ok w => rw [hstep] at hf; simp [exceptIsOk] at hf
        | error e =>
          simp only [withRetryGo, hstep]
          exact ih (k + 1) _ (by omega) (by omega)

/-- If every attempt fails (`err n` being the failure of the n-th
invocation), the loop raises the terminal wrapper around the last cause
after exhausting the remaining attempts. -/
theorem withRetryGo_all_fail {α : Type} (cfg : RetryConfig) (timeout : Nat)
    (op : Nat → Except JSError α × Nat) (jitter : Nat → Nat) (err : Nat → JSError)
    (hfail : ∀ n, attemptOutcome timeout (op n) = .error (err n)) :
    ∀ rem k delay, 1 ≤ rem →
      (withRetryGo cfg timeout op jitter k delay rem).result =
        .error (mkGeminiServiceError "Max retry attempts reached"
          (some (err (k + rem - 1))) none) ∧
      (withRetryGo cfg timeout op jitter k delay rem).invocations = k + rem := by
  intro rem
  induction rem with
  | zero => intro k delay h; omega
  | succ r ih =>
    intro k delay _
    cases r with
    | zero => simp [withRetryGo, hfail k]
    | succ s =>
      simp only [withRetryGo, hfail k]
      have h := ih (k + 1) (min (delay * cfg.backoffMultiplier) cfg.maxDelayMs) (by omega)
      have harith : k + 1 + (s + 1) - 1 = k + (s + 1 + 1) - 1 := by omega
      have harith2 : k + 1 + (s + 1) = k + (s + 1 + 1) := by omega
      rw [harith, harith2] at h
      exact h

/-- The loop's run is determined by the current attempt's classified
outcome and the operation's behaviour at the later invocation indices. -/
theorem withRetryGo_ext {α : Type} (cfg : RetryConfig) (timeout : Nat)
    (op op2 : Nat → Except JSError α × Nat) (jitter : Nat → Nat) :
    ∀ rem k delay,
      attemptOutcome timeout (op k) = attemptOutcome timeout (op2 k) →
      (∀ n, k < n → op n = op2 n) →
      withRetryGo cfg timeout op jitter k delay rem =
      withRetryGo cfg timeout op2 jitter k delay rem := by
  intro rem
  induction rem with
  | zero =>
    intro k delay h _
    simp only [withRetryGo, h]
  | succ r ih =>
    intro k delay h hop
    cases r with
    | zero => simp only [withRetryGo, h]
    | succ s =>
      simp only [withRetryGo, h]
      cases attemptOutcome timeout (op2 k) with
      | ok v => rfl
      | error e =>
        rw [ih (k + 1) _ (by rw [hop (k + 1) (by omega)])
          (fun n hn => hop n (by omega))]

/-- Every slept delay recorded by the loop, entered at attempt `k` with
`delay = delaySeq cfg k`, is the base backoff value plus that step's
jitter sample. -/
theorem withRetryGo_delays {α : Type} (cfg : RetryConfig) (timeout : Nat)
    (op : Nat → Except JSError α × Nat) (jitter : Nat → Nat) :
    ∀ rem k i x,
      (withRetryGo cfg timeout op jitter k (delaySeq cfg k) rem).delays.get? i = some x →
      x = delaySeq cfg (k + i) + jitter (k + i) := by
  intro rem
  induction rem with
  | zero =>
    intro k i x h
    cases hstep : attemptOutcome timeout (op k) with
    | ok v => simp [withRetryGo, hstep] at h
    | error e => simp [withRetryGo, hstep] at h
  | succ r ih =>
    intro k i x h
    cases r with
    | zero =>
      cases hstep : attemptOutcome timeout (op k) with
      | ok v => simp [withRetryGo, hstep] at h
      | error e => simp [withRetryGo, hstep] at h
    | succ s =>
      cases hstep : attemptOutcome timeout (op k) with
      | ok v => simp [withRetryGo, hstep] at h
      | error e =>
        simp only [withRetryGo, hstep] at h
        rw [show min (delaySeq cfg k * cfg.backoffMultiplier) cfg.maxDelayMs =
            delaySeq cfg (k + 1) from rfl] at h
        cases i with
        | zero =>
          have hx := Option.some.inj h
          simp only [Nat.add_zero]
          exact hx.symm
        | succ j =>
          have hj := ih (k + 1) j x h
          have heq : k + 1 + j = k + (j + 1) := by omega
          rw [heq] at hj
          exact hj

/-- The base backoff sequence never exceeds `maxDelayMs` when the initial
delay respects the cap. -/
theorem delaySeq_le_max (cfg : RetryConfig)
    (h0 : cfg.initialDelayMs ≤ cfg.maxDelayMs) :
    ∀ i, delaySeq cfg i ≤ cfg.maxDelayMs := by
  intro i
  cases i with
  | zero => exact h0
  | succ j => exact min_le_right _ _

/-- The base backoff sequence is monotonically non-decreasing when the
multiplier is at least one and the initial delay respects the cap. -/
theorem delaySeq_mono (cfg : RetryConfig)
    (h0 : cfg.initialDelayMs ≤ cfg.maxDelayMs) (h1 : 1 ≤ cfg.backoffMultiplier) :
    ∀ i j, i ≤ j → delaySeq cfg i ≤ delaySeq cfg j := by
  have hstep : ∀ i, delaySeq cfg i ≤ delaySeq cfg (i + 1) := by
    intro i
    show delaySeq cfg i ≤ min (delaySeq cfg i * cfg.backoffMultiplier) cfg.maxDelayMs
    refine le_min ?_ (delaySeq_le_max cfg h0 i)
    calc delaySeq cfg i = delaySeq cfg i * 1 := (Nat.mul_one _).symm
    _ ≤ delaySeq cfg i * cfg.backoffMultiplier := Nat.mul_le_mul_left _ h1
  intro i j hij
  induction j with
  | zero => simp_all
  | succ t iht =>
    rcases Nat.lt_or_ge i (t + 1) with hlt | hge
    · exact le_trans (iht (by omega)) (hstep t)
    · have : i = t + 1 := by omega
      subst this
      exact le_refl _

/-- Closed form of the service's backoff sequence:
`delay_k = min(1000 · 2^k, 10000)`. -/
theorem delaySeq_closed (mr : Nat) :
    ∀ i, delaySeq (serviceRetryConfig mr) i = min (1000 * 2 ^ i) 10000 := by
  intro i
  induction i with
  | zero => rfl
  | succ j ihj =>
    show min (delaySeq (serviceRetryConfig mr) j * 2) 10000 = min (1000 * 2 ^ (j + 1)) 10000
    rw [ihj, pow_succ, ← Nat.mul_assoc]
    generalize 1000 * 2 ^ j = p
    omega

/-! ## Claim theorems: retry executor -/

/-- C1: `withRetry` treats the configured attempt budget (`maxRetries`,
the spec's `maxAttempts`) as a true attempt count: (a) an operation whose
attempts `0..N-1` fail (including ok-but-over-timeout results) and whose
attempt `N` succeeds within the timeout returns the success value after
exactly `N+1` invocations whenever `N < maxAttempts`; (b) an operation
that always fails with `maxAttempts = 3` ends in a terminal error after
exactly 3 invocations; (c) the first attempt always runs even when
`maxAttempts = 1`: the operation is invoked exactly once. -/
theorem withRetry_true_attempt_count {α : Type} :
    (∀ (cfg : RetryConfig) (timeout N : Nat) (op : Nat → Except JSError α × Nat)
        (jitter : Nat → Nat) (v : α),
      (∀ n, n < N → exceptIsOk (attemptOutcome timeout (op n)) = false) →
      attemptOutcome timeout (op N) = .ok v →
      N < cfg.maxRetries →
      (withRetry cfg timeout op jitter).result = .ok v ∧
      (withRetry cfg timeout op jitter).invocations = N + 1) ∧
    (∀ (cfg : RetryConfig) (timeout : Nat) (op : Nat → Except JSError α × Nat)
        (jitter : Nat → Nat) (err : Nat → JSError),
      cfg.maxRetries = 3 →
      (∀ n, attemptOutcome timeout (op n) = .error (err n)) →
      exceptIsOk (withRetry cfg timeout op jitter).result = false ∧
      (withRetry cfg timeout op jitter).invocations = 3) ∧
    (∀ (cfg : RetryConfig) (timeout : Nat) (op : Nat → Except JSError α × Nat)
        (jitter : Nat → Nat),
      cfg.maxRetries = 1 →
      (withRetry cfg timeout op jitter).invocations = 1) := by
  refine ⟨?_, ?_, ?_⟩
  · intro cfg timeout N op jitter v hfail hok hN
    exact withRetryGo_ok_after_failures cfg timeout op jitter N v hfail hok
      cfg.maxRetries 0 cfg.initialDelayMs (Nat.zero_le N) (by omega)
  · intro cfg timeout op jitter err hmr hfail
    have h := withRetryGo_all_fail cfg timeout op jitter err hfail
      cfg.maxRetries 0 cfg.initialDelayMs (by omega)
    unfold withRetry
    refine ⟨?_, ?_⟩
    · rw [h.1]; rfl
    · rw [h.2]; omega
  · intro cfg timeout op jitter hmr
    unfold withRetry
    rw [hmr]
    cases hstep : attemptOutcome timeout (op 0) with
    | ok v => simp [withRetryGo, hstep]
    | error e => simp [withRetryGo, hstep]

/-- Witness for C1: part (a) at the concrete operation that fails once
(`N = 1`) then succeeds, with `maxAttempts = 3`. -/
theorem withRetry_true_attempt_count_witness :
    (withRetry (serviceRetryConfig 3) 30000
      (fun n => if n = 0 then ((.error (.plain "boom") : Except JSError String), 0)
                else (.ok "yes", 5)) (fun _ => 0)).result = .ok "yes" ∧
    (withRetry (serviceRetryConfig 3) 30000
      (fun n => if n = 0 then ((.error (.plain "boom") : Except JSError String), 0)
                else (.ok "yes", 5)) (fun _ => 0)).invocations = 2 :=
  withRetry_true_attempt_count.1 (serviceRetryConfig 3) 30000 1
    (fun n => if n = 0 then ((.error (.plain "boom") : Except JSError String), 0)
              else (.ok "yes", 5)) (fun _ => 0) "yes"
    (by decide) rfl (by decide)

/-- C3: an operation invocation that returns successfully but whose
elapsed duration exceeds the per-call timeout is classified as a timeout
failure, and the whole run proceeds exactly as if that invocation had
failed with the timeout error: the successful result is discarded, the
attempt counter advances, and the retry policy continues as for any other
failure. (The embedding observes the operation's completed result and its
full duration, mirroring the source's detection-only timeout: the
in-flight call is not cancelled.) -/
theorem withRetry_timeout_detection {α : Type} (cfg : RetryConfig) (timeout : Nat)
    (op : Nat → Except JSError α × Nat) (jitter : Nat → Nat) (v : α) (d : Nat)
    (h0 : op 0 = (.ok v, d)) (hd : timeout < d) :
    attemptOutcome timeout (op 0) =
      .error (mkGeminiServiceError (timeoutErrorMsg d) none none) ∧
    withRetry cfg timeout op jitter =
      withRetry cfg timeout
        (fun n => if n = 0 then
            ((.error (mkGeminiServiceError (timeoutErrorMsg d) none none) :
              Except JSError α), d)
          else op n) jitter := by
  have hstep : attemptOutcome timeout (op 0) =
      .error (mkGeminiServiceError (timeoutErrorMsg d) none none) := by
    rw [h0]
    simp only [attemptOutcome]
    rw [if_pos hd]
  refine ⟨hstep, ?_⟩
  unfold withRetry
  exact withRetryGo_ext cfg timeout op _ jitter cfg.maxRetries 0 cfg.initialDelayMs
    (by rw [hstep]; rfl) (fun n hn => (if_neg (by omega)).symm)

/-- Witness for C3 at a concrete over-timeout success. -/
theorem withRetry_timeout_detection_witness :
    attemptOutcome 10 (((fun _ => ((.ok "v" : Except JSError String), 50)) : Nat → Except JSError String × Nat) 0) =
      .error (mkGeminiServiceError (timeoutErrorMsg 50) none none) ∧
    withRetry (serviceRetryConfig 2) 10
        (fun _ => ((.ok "v" : Except JSError String), 50)) (fun _ => 0) =
      withRetry (serviceRetryConfig 2) 10
        (fun n => if n = 0 then
            ((.error (mkGeminiServiceError (timeoutErrorMsg 50) none none) :
              Except JSError String), 50)
          else ((.ok "v" : Except JSError String), 50)) (fun _ => 0) :=
  withRetry_timeout_detection (serviceRetryConfig 2) 10
    (fun _ => ((.ok "v" : Except JSError String), 50)) (fun _ => 0) "v" 50
    rfl (by decide)

/-- C4: the base backoff sequence actually used by `withRetry` (initial
delay 1000ms, multiplier 2, cap 10000ms) is monotonically non-decreasing,
capped at `maxDelayMs`, and equals `min(1000·2^k, 10000)` at step `k`
(0-based, i.e. the spec's `initialDelay·multiplier^(i-1)` for the i-th
inter-attempt delay); every slept inter-attempt delay recorded by a run
lies within `[base, base + 200]` whenever each jitter sample is at most
200ms (the source draws `Math.random() * 200`). -/
theorem withRetry_delay_bounds {α : Type} (mr timeout : Nat)
    (op : Nat → Except JSError α × Nat) (jitter : Nat → Nat)
    (hj : ∀ n, jitter n ≤ 200) :
    (∀ i j, i ≤ j →
      delaySeq (serviceRetryConfig mr) i ≤ delaySeq (serviceRetryConfig mr) j) ∧
    (∀ i, delaySeq (serviceRetryConfig mr) i ≤ (serviceRetryConfig mr).maxDelayMs) ∧
    (∀ i, delaySeq (serviceRetryConfig mr) i = min (1000 * 2 ^ i) 10000) ∧
    (∀ i x,
      (withRetry (serviceRetryConfig mr) timeout op jitter).delays.get? i = some x →
      delaySeq (serviceRetryConfig mr) i ≤ x ∧
        x ≤ delaySeq (serviceRetryConfig mr) i + 200) := by
  refine ⟨delaySeq_mono (serviceRetryConfig mr) (by norm_num [serviceRetryConfig])
      (by norm_num [serviceRetryConfig]),
    delaySeq_le_max (serviceRetryConfig mr) (by norm_num [serviceRetryConfig]),
    delaySeq_closed mr, ?_⟩
  intro i x h
  have hx := withRetryGo_delays (serviceRetryConfig mr) timeout op jitter mr 0 i x h
  rw [Nat.zero_add] at hx
  have := hj i
  omega

/-- Witness for C4: the second slept delay of a concrete all-failing run
with zero jitter is exactly the base value 2000ms. -/
theorem withRetry_delay_bounds_witness :
    delaySeq (serviceRetryConfig 3) 1 ≤ 2000 ∧
    2000 ≤ delaySeq (serviceRetryConfig 3) 1 + 200 :=
  (withRetry_delay_bounds 3 30000
    (fun _ => ((.error (.plain "x") : Except JSError String), 0)) (fun _ => 0)
    (fun _ => Nat.zero_le 200)).2.2.2 1 2000 rfl

/-! ## Lemmas about base64 strings and the data-URL head -/

/-- Every character of a string matching the base64-body regex is in the
base64 alphabet or is an `=` pad. -/
theorem isBase64Body_chars (s : String) (h : isBase64Body s = true) :
    ∀ c ∈ s.data, isB64Char c = true ∨ c = '=' := by
  intro c hc
  simp only [isBase64Body, Bool.and_eq_true] at h
  obtain ⟨⟨_, hall⟩, _⟩ := h
  rw [← List.takeWhile_append_dropWhile isB64Char s.data] at hc
  rcases List.mem_append.mp hc with h1 | h2
  · exact Or.inl (List.mem_takeWhile_imp h1)
  · right
    have := List.all_eq_true.mp hall c h2
    simpa using this

/-- A base64-body string contains no colon. -/
theorem isBase64Body_no_colon (s : String) (h : isBase64Body s = true) :
    ':' ∉ s.data := by
  intro hc
  rcases isBase64Body_chars s h ':' hc with h1 | h1
  · exact absurd h1 (by decide)
  · exact absurd h1 (by decide)

/-- A base64-body string is nonempty. -/
theorem isBase64Body_ne_empty (s : String) (h : isBase64Body s = true) : s ≠ "" := by
  intro he
  subst he
  rw [show isBase64Body "" = false from by decide] at h
  exact Bool.false_ne_true h

/-- A base64-body string starts with none of the data-URL heads (each
head contains a colon), so `validateImage`'s regex test fails on it and
`processImageData`'s replace leaves it unchanged. -/
theorem isBase64Body_no_head (s : String) (h : isBase64Body s = true) :
    hasDataUrlHead s = false ∧ stripDataUrl s = s := by
  have hnp : ∀ p ∈ dataUrlHeads, ¬ (p.data.isPrefixOf s.data = true) := by
    intro p hp hpre
    have hpfx : p.data <+: s.data := List.isPrefixOf_iff_prefix.mp hpre
    obtain ⟨t, ht⟩ := hpfx
    have hcolon : ':' ∈ s.data := by
      rw [← ht]
      apply List.mem_append_left
      fin_cases hp <;> decide
    exact isBase64Body_no_colon s h hcolon
  constructor
  · rw [hasDataUrlHead, List.any_eq_false]
    intro p hp
    simpa using hnp p hp
  · rw [stripDataUrl, List.find?_eq_none.mpr (fun p hp => by simpa using hnp p hp)]

/-- Prepending the png data-URL head is undone exactly by the replace. -/
theorem stripDataUrl_png_head (s : String) :
    stripDataUrl ("data:image/png;base64," ++ s) = s := by
  obtain ⟨l⟩ := s
  have hdata : ("data:image/png;base64," ++ String.mk l).data =
      "data:image/png;base64,".data ++ l := String.data_append _ _
  have hpos : ("data:image/png;base64,".data.isPrefixOf
      ("data:image/png;base64," ++ String.mk l).data) = true := by
    rw [hdata]
    exact List.isPrefixOf_iff_prefix.mpr (List.prefix_append _ _)
  have hfind : List.find?
      (fun p => p.data.isPrefixOf ("data:image/png;base64," ++ String.mk l).data)
      dataUrlHeads = some "data:image/png;base64," := by
    rw [dataUrlHeads]
    simp only [List.find?]
    rw [hpos]
  rw [stripDataUrl, hfind, hdata]
  show (⟨List.drop "data:image/png;base64,".data.length
    ("data:image/png;base64,".data ++ l)⟩ : String) = ⟨l⟩
  rw [List.drop_left]

/-- A string starting with the png data-URL head is nonempty and passes
the `validateImage` regex test. -/
theorem png_head_append_head (s : String) :
    ("data:image/png;base64," ++ s) ≠ "" ∧
    hasDataUrlHead ("data:image/png;base64," ++ s) = true := by
  constructor
  · intro h
    have := congrArg String.data h
    rw [String.data_append] at this
    simp at this
  · rw [hasDataUrlHead, dataUrlHeads, List.any_cons]
    apply Bool.or_eq_true_iff.mpr
    left
    rw [String.data_append]
    exact List.isPrefixOf_iff_prefix.mpr (List.prefix_append _ _)

/-! ## Claim theorems: validation and image processing -/

/-- Counterexample for C5: the pure base64-alphabet string `"QUJD"` is
rejected by the request validator `validateImage` when it has no data-URL
head — the head is mandatory there, not optional (while the same string
with a head is accepted). -/
theorem validateImage_requires_head_cex :
    isBase64Body "QUJD" = true ∧
    validateImage "QUJD" = ⟨false, some ["Invalid image format"]⟩ ∧
    (validateImage "data:image/png;base64,QUJD").valid = true := by
  refine ⟨by decide, by decide, by decide⟩

/-- C5 (amended): the data-URL head is optional only at the service
layer — `processImageData` accepts every base64-alphabet string (with up
to two `=` pads) both with and without the `data:image/png;base64,`
head — whereas the HTTP request validator `validateImage` rejects every
base64-body string lacking the head and accepts it with the head. -/
theorem dataUrl_head_optional (s : String) (hs : isBase64Body s = true) :
    exceptIsOk (processImageData s) = true ∧
    exceptIsOk (processImageData ("data:image/png;base64," ++ s)) = true ∧
    (validateImage s).valid = false ∧
    (validateImage ("data:image/png;base64," ++ s)).valid = true := by
  obtain ⟨hhead, hstrip⟩ := isBase64Body_no_head s hs
  obtain ⟨hne, hheadApp⟩ := png_head_append_head s
  refine ⟨?_, ?_, ?_, ?_⟩
  · rw [processImageData]
    simp only [hstrip, hs, if_true]
    rfl
  · rw [processImageData]
    simp only [stripDataUrl_png_head, hs, if_true]
    rfl
  · rw [validateImage, if_neg (isBase64Body_ne_empty s hs), if_pos (by simp [hhead])]
  · rw [validateImage, if_neg hne, if_neg (by simp [hheadApp])]

/-- Witness for C5 (amended) at the concrete base64 string `"QUJD"`. -/
theorem dataUrl_head_optional_witness :
    exceptIsOk (processImageData "QUJD") = true ∧
    exceptIsOk (processImageData ("data:image/png;base64," ++ "QUJD")) = true ∧
    (validateImage "QUJD").valid = false ∧
    (validateImage ("data:image/png;base64," ++ "QUJD")).valid = true :=
  dataUrl_head_optional "QUJD" (by decide)

/-- C2: the route-level validation aggregates all rule violations into a
single list: for every request with an empty question and an invalid
image, the aggregated list contains the question violation and every
image violation; at the spec's concrete example both messages appear in
the one result. -/
theorem validateRequest_aggregates (input : VQAToolInput)
    (hq : input.question = "")
    (himg : (validateImage input.image).valid = false) :
    "Question is required" ∈ requestValidationErrors input ∧
    (validateImage input.image).errors.getD [] ≠ [] ∧
    (∀ e ∈ (validateImage input.image).errors.getD [], e ∈ requestValidationErrors input) ∧
    requestValidationErrors ⟨"", "not-base64!!", none, none⟩ =
      ["Invalid image format", "Question is required"] := by
  refine ⟨?_, ?_, ?_, by decide⟩
  · simp only [requestValidationErrors]
    apply List.mem_append_left
    apply List.mem_append_right
    rw [hq]
    decide
  · rw [validateImage] at himg ⊢
    split
    · simp
    · split
      · simp
      · simp_all
  · intro e he
    simp only [requestValidationErrors]
    apply List.mem_append_left
    exact List.mem_append_left _ he

/-- Witness for C2 at the spec's concrete two-mistake request. -/
theorem validateRequest_aggregates_witness :
    "Question is required" ∈ requestValidationErrors ⟨"", "not-base64!!", none, none⟩ ∧
    "Invalid image format" ∈ requestValidationErrors ⟨"", "not-base64!!", none, none⟩ :=
  ⟨(validateRequest_aggregates ⟨"", "not-base64!!", none, none⟩ rfl (by decide)).1,
   (validateRequest_aggregates ⟨"", "not-base64!!", none, none⟩ rfl (by decide)).2.2.1
     "Invalid image format" (by decide)⟩

/-- C6 (code evaluated at the failing input): a request whose `maxTokens`
is 5000 — far outside the advertised schema range `[1, 2048]` — produces
no validation violation at all, and the route forwards it unchanged to
`analyzeImage`; `maxTokens` is never validated by `createValidator` or
the route, contradicting the schema comment that it "will be used to
validate incoming requests". -/
theorem maxTokens_never_validated :
    requestValidationErrors
      ⟨"What color is the car?", "data:image/jpeg;base64,QUJD", none, some 5000⟩ = [] ∧
    ¬ (5000 ≤ vqaToolSchemaMaxTokensMax) ∧
    (∀ (cfg : RetryConfig) (timeout : Nat) (op : Nat → Except JSError String × Nat)
        (jitter : Nat → Nat) (elapsedMs : Nat),
      handleAnalyzeImage cfg timeout op jitter elapsedMs
        ⟨"What color is the car?", "data:image/jpeg;base64,QUJD", none, some 5000⟩ =
      .forwarded (analyzeImage cfg timeout "What color is the car?"
        "data:image/jpeg;base64,QUJD" none (some 5000) op jitter elapsedMs)) := by
  refine ⟨by decide, by decide, ?_⟩
  intro cfg timeout op jitter elapsedMs
  rw [handleAnalyzeImage]
  simp only [show requestValidationErrors
      ⟨"What color is the car?", "data:image/jpeg;base64,QUJD", none, some 5000⟩ = []
    from by decide]
  rfl

/-! ## Claim theorems: screenshot lifecycle, error details, mime types,
confidence -/

/-- C7: every screenshot acquisition launches exactly one browser and the
`finally` block closes it on every exit path — whether navigation and
capture succeed or throw, the acquisition trace ends with the close event
and contains exactly one launch and one close; the full `analyze_website`
trace still contains exactly that one launch/close pair regardless of the
provider call's outcome, which only ever happens after the close. -/
theorem browser_scoped_release (env : WebsiteEnv) :
    (takeWebsiteScreenshot env).2.count .launch = 1 ∧
    (takeWebsiteScreenshot env).2.count .close = 1 ∧
    (takeWebsiteScreenshot env).2.getLast? = some .close ∧
    (analyzeWebsite env).2.count .launch = 1 ∧
    (analyzeWebsite env).2.count .close = 1 ∧
    ((analyzeWebsite env).2 = (takeWebsiteScreenshot env).2 ∨
     (analyzeWebsite env).2 =
       (takeWebsiteScreenshot env).2 ++ [.provider "image/png"]) := by
  obtain ⟨nav, shot, prov⟩ := env
  cases nav <;> cases shot <;> cases prov <;>
    simp [takeWebsiteScreenshot, analyzeWebsite]

/-- Counterexample for C8: with every attempt failing on `"quota
exceeded"`, the error surfaced by `analyzeImage` carries
`details = "Max retry attempts reached"` — the retry wrapper's own
message, which does not contain the last underlying failure's message
(that message survives only one level deeper, on the wrapped cause). -/
theorem analyzeImage_details_cex :
    analyzeImage (serviceRetryConfig 2) 30000 "q" "QUJD" none none
      (fun _ => (.error (.plain "quota exceeded"), 0)) (fun _ => 0) 7 =
    .error (.gemini "Failed to analyze image"
      (some (.gemini "Max retry attempts reached" (some (.plain "quota exceeded"))
        (some "quota exceeded")))
      (some "Max retry attempts reached")) ∧
    ("Max retry attempts reached".data.tails.any
      (fun t => "quota exceeded".data.isPrefixOf t)) = false :=
  ⟨rfl, by decide⟩

/-- C8 (amended): when every attempt fails, the error surfaced by
`analyzeImage` is the analyze-wrapper around the retry executor's
terminal error; its `details` is the fixed string
`"Max retry attempts reached"`, while the last underlying cause is not
swallowed — it is retained as the cause of the wrapped error, whose own
`details` holds the last underlying failure's message. -/
theorem analyzeImage_terminal_details (cfg : RetryConfig) (timeout : Nat)
    (question image : String) (context : Option String) (maxTokens : Option Nat)
    (op : Nat → Except JSError String × Nat) (jitter : Nat → Nat) (elapsedMs : Nat)
    (err : Nat → JSError)
    (himg : isBase64Body (stripDataUrl image) = true)
    (hmr : 1 ≤ cfg.maxRetries)
    (hfail : ∀ n, attemptOutcome timeout (op n) = .error (err n)) :
    analyzeImage cfg timeout question image context maxTokens op jitter elapsedMs =
      .error (mkGeminiServiceError "Failed to analyze image"
        (some (mkGeminiServiceError "Max retry attempts reached"
          (some (err (cfg.maxRetries - 1))) none)) none) ∧
    (mkGeminiServiceError "Failed to analyze image"
        (some (mkGeminiServiceError "Max retry attempts reached"
          (some (err (cfg.maxRetries - 1))) none)) none).detailsOf =
      some "Max retry attempts reached" ∧
    (mkGeminiServiceError "Max retry attempts reached"
        (some (err (cfg.maxRetries - 1))) none).detailsOf =
      some (err (cfg.maxRetries - 1)).message := by
  have hrun := withRetryGo_all_fail cfg timeout op jitter err hfail
    cfg.maxRetries 0 cfg.initialDelayMs hmr
  simp only [Nat.zero_add] at hrun
  refine ⟨?_, rfl, rfl⟩
  rw [analyzeImage]
  simp only [processImageData, himg, if_true]
  rw [show withRetry cfg timeout op jitter =
    withRetryGo cfg timeout op jitter 0 cfg.initialDelayMs cfg.maxRetries from rfl]
  rw [hrun.1]

/-- Witness for C8 (amended) at the concrete always-failing provider. -/
theorem analyzeImage_terminal_details_witness :
    analyzeImage (serviceRetryConfig 2) 30000 "q" "QUJD" none none
        (fun _ => (.error (.plain "quota exceeded"), 0)) (fun _ => 0) 7 =
      .error (mkGeminiServiceError "Failed to analyze image"
        (some (mkGeminiServiceError "Max retry attempts reached"
          (some (.plain "quota exceeded")) none)) none) ∧
    (mkGeminiServiceError "Failed to analyze image"
        (some (mkGeminiServiceError "Max retry attempts reached"
          (some (.plain "quota exceeded")) none)) none).detailsOf =
      some "Max retry attempts reached" ∧
    (mkGeminiServiceError "Max retry attempts reached"
        (some (.plain "quota exceeded")) none).detailsOf =
      some (JSError.message (.plain "quota exceeded")) :=
  analyzeImage_terminal_details (serviceRetryConfig 2) 30000 "q" "QUJD" none none
    (fun _ => (.error (.plain "quota exceeded"), 0)) (fun _ => 0) 7
    (fun _ => .plain "quota exceeded") (by decide) (by decide) (fun _ => rfl)

/-- Counterexample for C9: an inline image declaring `image/png` in its
data-URL head is still stamped `image/jpeg` by `processImageData` — the
mime type is not inferred from the declared type. -/
theorem inline_mime_not_inferred_cex :
    processImageData "data:image/png;base64,QUJD" = .ok ⟨"QUJD", "image/jpeg"⟩ ∧
    "image/jpeg" ≠ "image/png" :=
  ⟨rfl, by decide⟩

/-- C9 (amended): the mime type is consistent with the source for files
(fixed extension table on the lowercased extension, default `image/jpeg`)
and screenshots (`image/png` handed to the provider); for inline images,
however, `processImageData` stamps the constant `image/jpeg` on every
accepted string, regardless of any declared data-URL type. -/
theorem acquire_mime_consistency :
    (getMimeType "photo.jpg" = "image/jpeg" ∧ getMimeType "photo.jpeg" = "image/jpeg" ∧
     getMimeType "photo.png" = "image/png" ∧ getMimeType "photo.gif" = "image/gif" ∧
     getMimeType "photo.webp" = "image/webp" ∧ getMimeType "photo.bmp" = "image/jpeg" ∧
     getMimeType "PHOTO.PNG" = "image/png" ∧ getMimeType "noext" = "image/jpeg") ∧
    (∀ (env : WebsiteEnv) (m : String),
      WebEvent.provider m ∈ (analyzeWebsite env).2 → m = "image/png") ∧
    (∀ (s : String) (part : InlinePart),
      processImageData s = .ok part → part.mimeType = "image/jpeg") := by
  refine ⟨by decide, ?_, ?_⟩
  · intro env m hm
    obtain ⟨nav, shot, prov⟩ := env
    cases nav <;> cases shot <;> cases prov <;>
      simp [takeWebsiteScreenshot, analyzeWebsite] at hm <;> exact hm
  · intro s part h
    rw [processImageData] at h
    split at h
    · cases h
      rfl
    · cases h

/-- Witness for C9 (amended): the provider-mime clause at a concrete
successful environment, and the inline clause at a concrete string. -/
theorem acquire_mime_consistency_witness :
    "image/png" = "image/png" ∧
    (⟨"QUJD", "image/jpeg"⟩ : InlinePart).mimeType = "image/jpeg" :=
  ⟨acquire_mime_consistency.2.1 ⟨.ok (), .ok [1], .ok "an answer"⟩ "image/png"
      (by decide),
   acquire_mime_consistency.2.2 "QUJD" ⟨"QUJD", "image/jpeg"⟩ rfl⟩

/-- C10: every successful analysis carries the fixed placeholder
confidence `0.9` (the rational `9/10`), not a measured quantity; at the
spec's concrete stub (provider answering `"red"` on a valid request) the
result is `{answer: "red", confidence: 0.9}`. -/
theorem confidence_placeholder :
    (∀ (cfg : RetryConfig) (timeout : Nat) (question image : String)
        (context : Option String) (maxTokens : Option Nat)
        (op : Nat → Except JSError String × Nat) (jitter : Nat → Nat)
        (elapsedMs : Nat) (r : VQAToolResponse),
      analyzeImage cfg timeout question image context maxTokens op jitter elapsedMs =
        .ok r →
      r.confidence = 9 / 10) ∧
    analyzeImage (serviceRetryConfig 3) 30000 "What color is the car?"
        "data:image/jpeg;base64,QUJD" none none
        (fun _ => (.ok "red", 100)) (fun _ => 0) 5 =
      .ok ⟨"red", 9 / 10, 5, geminiModelName⟩ := by
  refine ⟨?_, rfl⟩
  intro cfg timeout question image context maxTokens op jitter elapsedMs r h
  simp only [analyzeImage] at h
  split at h
  · rename_i r2 heq
    cases h
    split at heq
    · cases heq
    · split at heq
      · cases heq
      · cases heq
        rfl
  · cases h

/-- Witness for C10: applying the universal clause at the concrete stub
run. -/
theorem confidence_placeholder_witness :
    (⟨"red", 9 / 10, 5, geminiModelName⟩ : VQAToolResponse).confidence = 9 / 10 :=
  confidence_placeholder.1 (serviceRetryConfig 3) 30000 "What color is the car?"
    "data:image/jpeg;base64,QUJD" none none (fun _ => (.ok "red", 100)) (fun _ => 0) 5
    ⟨"red", 9 / 10, 5, geminiModelName⟩ rfl

end GeminiVQA
